import Mathlib

/-!
Shallow embedding of `main.py` from the crewaiagent repository.

The script wires two CrewAI agents (a research persona and a writer
persona) into a two-task sequential pipeline.  We embed the configuration
objects the script builds (agents, tasks, the crew), the environment-variable
checks, the topic selection from standard input, and the printed-line trace
of `main` as a function of an abstract world (environment, input line,
kickoff result, and the eventual contents of `article.md`).

Framework-owned behaviour (the LLM loop, tool execution, file writing) is
opaque to the script and is modelled by the `World` record: `kickoffResult`
is what `crew.kickoff()` returns or raises, and `article` is the contents of
`article.md` if that file exists after the run.
-/

/-- An environment maps a variable name to its value, `none` when unset
(`os.getenv`). -/
abbrev Env := String → Option String

/-- Python truthiness of an `os.getenv` result: `None` and the empty string
are falsy, every other string is truthy. -/
def pyTruthy : Option String → Bool
  | none => false
  | some s => !s.isEmpty

/-- Python whitespace characters stripped by `str.strip()` (ASCII subset). -/
def pySpace (c : Char) : Bool :=
  c = ' ' || c = '\t' || c = '\n' || c = '\r' || c = '\x0b' || c = '\x0c'

/-- Python `str.strip()`: drop leading and trailing whitespace. -/
def pyStrip (s : String) : String :=
  String.mk (((s.data.dropWhile pySpace).reverse.dropWhile pySpace).reverse)

/-- The two prebuilt framework tools the script instantiates. -/
inductive Tool where
  | serperDev
  | fileWriter
  deriving DecidableEq, Repr

/-- The fields of `crewai.Agent` that the script passes. -/
structure Agent where
  role : String
  goal : String
  backstory : String
  tools : List Tool
  verbose : Bool
  allow_delegation : Bool
  deriving Repr

/-- The fields of `crewai.Task` that the script passes.  `context` defaults
to the empty list when the constructor call omits it. -/
inductive CrewTask where
  | mk (description : String) (expected_output : String) (agent : Agent)
      (context : List CrewTask) (async_execution : Bool)

/-- Accessor for the task description string. -/
def CrewTask.description : CrewTask → String
  | .mk d _ _ _ _ => d

/-- Accessor for the task expected-output string. -/
def CrewTask.expected_output : CrewTask → String
  | .mk _ e _ _ _ => e

/-- Accessor for the agent a task is assigned to. -/
def CrewTask.agent : CrewTask → Agent
  | .mk _ _ a _ _ => a

/-- Accessor for the task context (tasks whose output this task uses). -/
def CrewTask.context : CrewTask → List CrewTask
  | .mk _ _ _ c _ => c

/-- Accessor for the async-execution flag. -/
def CrewTask.async_execution : CrewTask → Bool
  | .mk _ _ _ _ b => b

/-- `crewai.Process` values. -/
inductive Process where
  | sequential
  | hierarchical
  deriving DecidableEq, Repr

/-- The fields of `crewai.Crew` that the script passes. -/
structure Crew where
  agents : List Agent
  tasks : List CrewTask
  process : Process
  verbose : Bool

/-- `BACKGROUND_CONTEXT` module constant, transcribed verbatim. -/
def BACKGROUND_CONTEXT : String :=
  "You bring together experiences such as:\n- Guiding Stanford\x27s Ethics, Technology, and Public Policy cohort alongside\n  Professors Mehran Sahami, Jeremy Weinstein, and Rob Reich\n- Examining artificial intelligence and software innovations as a U.S. Patent\n  Examiner and GAO technology auditor\n- Advising Federal leaders across the White House, OMB, SBA, GSA, and the\n  Department of Education on data transparency, emerging technology, and\n  digital service delivery\n- Championing human-centered design at IDEO and launching civic technology and\n  economic development initiatives with governments, nonprofits, and industry\n- Supporting academic and civic communities at the University of Pennsylvania,\n  University of Michigan, USC, and international forums such as UNICEF USA\nUse this lived experience to ground every analysis, highlight ethical and\nequity implications, and surface cross-sector collaboration opportunities."

/-- `_maybe_create_serper_tool`: a Serper search tool when the API key is
available (Python truthiness of `os.getenv("SERPER_API_KEY")`). -/
def maybe_create_serper_tool (env : Env) : List Tool :=
  if pyTruthy (env "SERPER_API_KEY") then [Tool.serperDev] else []

/-- `create_research_agent`, with the adjacent string literals of the source
already concatenated as Python does. -/
def create_research_agent (env : Env) : Agent :=
  { role := "Ethics and Emerging Technology Research Lead"
    goal := "Synthesize cross-sector research into AI governance, civic technology, and human-centered innovation so complex topics are ready for policy and design discussions."
    backstory := "You guide conversations on technology ethics at Stanford, advise on AI accountability from service at the U.S. Government Accountability Office and the U.S. Patent and Trademark Office, and translate research for public servants, engineers, and designers."
    tools := maybe_create_serper_tool env
    verbose := true
    allow_delegation := false }

/-- `create_writer_agent`; it consults no environment variable. -/
def create_writer_agent : Agent :=
  { role := "Policy Communicator and Storyteller"
    goal := "Transform nuanced research into compelling narratives with clear recommendations for civic leaders, technologists, and academics."
    backstory := "Drawing on experience moderating discussions with global leaders, crafting GAO reports for Congress, and briefing White House stakeholders, you excel at weaving evidence, ethics, and inclusive design into accessible writing."
    tools := [Tool.fileWriter]
    verbose := true
    allow_delegation := false }

/-- `create_research_task`: the f-string description and the expected output,
transcribed verbatim with the interpolations made explicit. -/
def create_research_task (agent : Agent) (topic : String) : CrewTask :=
  let description :=
    "Investigate the topic: " ++ topic
      ++ "\n\n    Anchor your thinking in the following background:\n    "
      ++ BACKGROUND_CONTEXT
      ++ "\n\n    Focus your review on:\n    1. Ethical, societal, and economic implications across government, industry, and civil society\n    2. Practical case studies from Federal initiatives, academia, and mission-driven organizations\n    3. Key policy, legal, and governance debates shaping the technology\x27s deployment\n    4. Opportunities to align innovation with public interest outcomes and inclusive design\n\n    Deliver concise, sourced findings suitable for collaboration with product, policy, and research partners."
  let expected_output :=
    "A structured research memo that includes:\n    - Executive summary highlighting the most relevant developments\n    - Table of key benefits, risks, and mitigation strategies\n    - Case studies with short annotations on impact and lessons learned\n    - Policy or governance considerations with references\n    - Bibliography of credible sources consulted"
  CrewTask.mk description expected_output agent [] false

/-- `create_writing_task`: depends on the research task through `context`. -/
def create_writing_task (agent : Agent) (research_task : CrewTask) (topic : String) : CrewTask :=
  let description :=
    "Using the research findings, craft a policy-oriented article on: " ++ topic
      ++ "\n\n    Keep this lived experience in mind while writing:\n    "
      ++ BACKGROUND_CONTEXT
      ++ "\n\n    Requirements:\n    1. Open with a concise briefing that situates the issue for technology and policy leaders\n    2. Organize sections for context, current state of the field, governance considerations, and future outlook\n    3. Showcase real-world examples that resonate with multi-sector stakeholders\n    4. Recommend actionable steps for researchers, product teams, and public officials\n    5. Save the article to \x27article.md\x27 in Markdown format\n\n    Aim for 800-1000 words with clear headings and accessible explanations.\n    Maintain a tone that reflects a collaborative civic technologist."
  let expected_output :=
    "A Markdown article saved as \x27article.md\x27 containing:\n    - Briefing-style introduction\n    - Thematic sections with descriptive headings\n    - Integrated examples and stakeholder perspectives\n    - Actionable recommendations and closing reflection\n    - Reference list for further reading"
  CrewTask.mk description expected_output agent [research_task] false

/-- The `"=" * 50` separator line. -/
def eqBar : String := String.mk (List.replicate 50 '=')

/-- `_print_intro`: the lines it prints. -/
def print_intro : List String := ["Welcome", eqBar]

/-- The note printed when `os.getenv("SERPER_API_KEY") is None`. -/
def serper_note_line : String :=
  "Note: SERPER_API_KEY is not configured. Web search will be skipped, but the crew can still operate with available context."

/-- `_warn_about_missing_keys`: the lines it prints, as a function of the
environment.  The `missing` list test uses Python truthiness
(`not os.getenv(...)`); the Serper note test uses `is None`. -/
def warn_about_missing_keys (env : Env) : List String :=
  let missing : List String :=
    if pyTruthy (env "OPENAI_API_KEY") then [] else ["OPENAI_API_KEY"]
  (if missing.isEmpty then [] else
    "Warning: the following environment variables are not set:"
      :: missing.map (fun key => " - " ++ key)
      ++ ["Set the required keys before running the crew to avoid runtime errors."])
  ++ (match env "SERPER_API_KEY" with
      | none => [serper_note_line]
      | some _ => [])

/-- The default topic used when the stripped input is empty. -/
def default_topic : String := "Public interest safeguards for generative AI systems"

/-- Topic selection in `main`: strip the input line; if the result is falsy
(empty), fall back to the default topic. -/
def chooseTopic (line : String) : String :=
  let topic := pyStrip line
  if topic.isEmpty then default_topic else topic

/-- The world `main` runs in: environment, the standard-input line, the
outcome of `crew.kickoff()` (error message or final output), and the contents
of `article.md` if that file exists after the run. -/
structure World where
  env : Env
  inputLine : String
  kickoffResult : Except String String
  article : Option String

/-- Everything `main` prints before invoking `crew.kickoff()`. -/
def preOutput (w : World) : List String :=
  print_intro
    ++ warn_about_missing_keys w.env
    ++ (if (pyStrip w.inputLine).isEmpty then
          ["No topic provided. Using default: " ++ default_topic] else [])
    ++ ["\nTopic: " ++ chooseTopic w.inputLine, eqBar,
        "\nConfiguring agents based on public service and design experience...",
        "Defining tasks aligned to research and storytelling workflows...",
        "\nLaunching the sequential crew..."]

/-- What `main` prints from `crew.kickoff()` onwards: the broad `except`
branch prints the failure lines and returns; the success branch prints the
final output and then the branch selected by the existence of `article.md`. -/
def kickoffOutput (result : Except String String) (article : Option String) : List String :=
  match result with
  | Except.error e =>
      ["\nCrew execution did not complete successfully.",
       "Reason: " ++ e,
       "Verify API credentials and network access, then re-run the script."]
  | Except.ok final_output =>
      ["\nCrew execution completed successfully.", eqBar, "Final Output:\n", final_output]
        ++ (match article with
            | some article_text =>
                ["\nArticle saved to \x27article.md\x27.",
                 "Article length: " ++ toString article_text.length ++ " characters"]
            | none =>
                ["\nThe file \x27article.md\x27 was not created. Confirm that the FileWriterTool is configured correctly."])

/-- The full printed-line trace of `main`. -/
def mainOutput (w : World) : List String :=
  preOutput w ++ kickoffOutput w.kickoffResult w.article

/-- The crew `main` assembles and hands to the framework executor. -/
def mainCrew (w : World) : Crew :=
  let topic := chooseTopic w.inputLine
  let researcher := create_research_agent w.env
  let writer := create_writer_agent
  let research_task := create_research_task researcher topic
  let writing_task := create_writing_task writer research_task topic
  { agents := [researcher, writer]
    tasks := [research_task, writing_task]
    process := Process.sequential
    verbose := true }

/-- A string `t` occurs verbatim as a substring of `s`. -/
def containsString (s t : String) : Prop := ∃ a b, s = a ++ t ++ b

/-- Environment with `SERPER_API_KEY` set to the empty string and every other
variable unset. -/
def envSerperEmpty : Env :=
  fun k => if k = "SERPER_API_KEY" then some "" else none

/-- Environment with `SERPER_API_KEY` set to a non-empty value and every
other variable unset. -/
def envSerperSet : Env :=
  fun k => if k = "SERPER_API_KEY" then some "abc" else none

/-- Environment with no variable set. -/
def envNothingSet : Env := fun _ => none

/-- Environment with `OPENAI_API_KEY` set to the empty string and every other
variable set to a non-empty value. -/
def envOpenaiEmpty : Env :=
  fun k => if k = "OPENAI_API_KEY" then some "" else some "x"

/-- A world whose `crew.kickoff()` raises with message `boom`. -/
def worldError : World :=
  { env := envNothingSet, inputLine := "", kickoffResult := Except.error "boom",
    article := none }

/-- A world whose `crew.kickoff()` succeeds and where `article.md` exists
with contents `hello`. -/
def worldSaved : World :=
  { env := envSerperSet, inputLine := "  ai policy  ",
    kickoffResult := Except.ok "done", article := some "hello" }

/-- A world whose `crew.kickoff()` succeeds and where `article.md` does not
exist. -/
def worldNotSaved : World :=
  { env := envSerperSet, inputLine := "x", kickoffResult := Except.ok "done",
    article := none }

/-- Characterisation of Python falsiness of an `os.getenv` result. -/
theorem pyTruthy_eq_false_iff (o : Option String) :
    pyTruthy o = false ↔ (o = none ∨ o = some "") := by
  cases o with
  | none => simp [pyTruthy]
  | some s => simp [pyTruthy, String.isEmpty_iff]

/-- A string that extends `a` on the right cannot equal a string of which
`a` is not a prefix. -/
theorem append_ne_of_not_prefix (a t c : String) (h : ¬ a.data <+: c.data) :
    a ++ t ≠ c := by
  intro he
  apply h
  rw [← he]
  exact ⟨t.data, (String.data_append a t).symm⟩

/-- Every line `_warn_about_missing_keys` prints is one of four fixed
strings. -/
theorem mem_warn_about_missing_keys (env : Env) (l : String)
    (h : l ∈ warn_about_missing_keys env) :
    l = "Warning: the following environment variables are not set:" ∨
    l = " - OPENAI_API_KEY" ∨
    l = "Set the required keys before running the crew to avoid runtime errors." ∨
    l = serper_note_line := by
  cases hb : pyTruthy (env "OPENAI_API_KEY") <;>
    cases hs : env "SERPER_API_KEY" <;>
      simp [warn_about_missing_keys, hb, hs] at h <;> tauto

/-- C1: the default topic is substituted exactly when the stripped input is
empty; otherwise the stripped input itself becomes the topic. -/
theorem default_topic_iff_blank_input (line : String) :
    (pyStrip line = "" → chooseTopic line = default_topic) ∧
    (pyStrip line ≠ "" → chooseTopic line = pyStrip line) := by
  constructor <;> intro h <;> simp [chooseTopic, String.isEmpty_iff, h]

/-- Witness for C1 at a blank and a non-blank input. -/
theorem default_topic_iff_blank_input_witness :
    chooseTopic "   " = default_topic ∧ chooseTopic "  ai policy  " = "ai policy" :=
  ⟨(default_topic_iff_blank_input "   ").1 (by decide),
   ((default_topic_iff_blank_input "  ai policy  ").2 (by decide)).trans (by decide)⟩

/-- C2 counterexample: with `SERPER_API_KEY` set to the empty string the
variable is set, yet the research agent carries no search tool. -/
theorem serper_enable_claim_counterexample :
    envSerperEmpty "SERPER_API_KEY" ≠ none ∧
    Tool.serperDev ∉ (create_research_agent envSerperEmpty).tools := by
  constructor
  · decide
  · decide

/-- C2 (amended): the research agent's tools list is `[SerperDevTool]` when
`SERPER_API_KEY` is set to a non-empty string, and empty when the variable
is unset or set to the empty string. -/
theorem serper_tool_requires_nonempty_key (env : Env) :
    ((∃ s, env "SERPER_API_KEY" = some s ∧ s ≠ "") →
        (create_research_agent env).tools = [Tool.serperDev]) ∧
    ((env "SERPER_API_KEY" = none ∨ env "SERPER_API_KEY" = some "") →
        (create_research_agent env).tools = []) := by
  constructor
  · rintro ⟨s, hs, hne⟩
    simp [create_research_agent, maybe_create_serper_tool, hs, pyTruthy,
      String.isEmpty_iff, hne]
  · rintro (h | h)
    · simp [create_research_agent, maybe_create_serper_tool, h, pyTruthy]
    · simp [create_research_agent, maybe_create_serper_tool, h, pyTruthy]
      decide

/-- Witness for the amended C2 at a non-empty key and at an unset key. -/
theorem serper_tool_requires_nonempty_key_witness :
    (create_research_agent envSerperSet).tools = [Tool.serperDev] ∧
    (create_research_agent envNothingSet).tools = [] :=
  ⟨(serper_tool_requires_nonempty_key envSerperSet).1 ⟨"abc", rfl, by decide⟩,
   (serper_tool_requires_nonempty_key envNothingSet).2 (Or.inl rfl)⟩

/-- C3 counterexample: with `OPENAI_API_KEY` set to the empty string the
variable is set, yet the missing-key warning line for it is printed. -/
theorem missing_key_warning_claim_counterexample :
    envOpenaiEmpty "OPENAI_API_KEY" ≠ none ∧
    " - OPENAI_API_KEY" ∈ warn_about_missing_keys envOpenaiEmpty := by
  constructor
  · decide
  · decide

/-- C3 (amended): the `OPENAI_API_KEY` warning line prints exactly when that
variable is unset or set to the empty string, while the `SERPER_API_KEY`
note prints exactly when that variable is unset. -/
theorem missing_key_warning_amended (env : Env) :
    (" - OPENAI_API_KEY" ∈ warn_about_missing_keys env ↔
        (env "OPENAI_API_KEY" = none ∨ env "OPENAI_API_KEY" = some "")) ∧
    (serper_note_line ∈ warn_about_missing_keys env ↔
        env "SERPER_API_KEY" = none) := by
  have hchar := pyTruthy_eq_false_iff (env "OPENAI_API_KEY")
  cases hb : pyTruthy (env "OPENAI_API_KEY") <;>
    cases hs : env "SERPER_API_KEY" <;>
      simp [warn_about_missing_keys, hb, hs, ← hchar, serper_note_line]

/-- Witness for the amended C3 with nothing set: the note prints. -/
theorem missing_key_warning_amended_witness :
    serper_note_line ∈ warn_about_missing_keys envNothingSet :=
  (missing_key_warning_amended envNothingSet).2.mpr rfl

/-- Every line printed before the kickoff is one of a fixed set of strings,
a warning line, or the topic line. -/
theorem mem_preOutput (w : World) (l : String) (h : l ∈ preOutput w) :
    l = "Welcome" ∨ l = eqBar ∨
    l ∈ warn_about_missing_keys w.env ∨
    l = "No topic provided. Using default: " ++ default_topic ∨
    l = "\nTopic: " ++ chooseTopic w.inputLine ∨
    l = "\nConfiguring agents based on public service and design experience..." ∨
    l = "Defining tasks aligned to research and storytelling workflows..." ∨
    l = "\nLaunching the sequential crew..." := by
  cases hd : (pyStrip w.inputLine).isEmpty <;>
    simp [preOutput, print_intro, hd] at h <;> tauto

/-- When the kickoff raises, every printed line is a pre-kickoff line or one
of the three failure lines. -/
theorem mem_mainOutput_error (w : World) (e l : String)
    (h : w.kickoffResult = Except.error e) (hl : l ∈ mainOutput w) :
    l = "Welcome" ∨ l = eqBar ∨
    l ∈ warn_about_missing_keys w.env ∨
    l = "No topic provided. Using default: " ++ default_topic ∨
    l = "\nTopic: " ++ chooseTopic w.inputLine ∨
    l = "\nConfiguring agents based on public service and design experience..." ∨
    l = "Defining tasks aligned to research and storytelling workflows..." ∨
    l = "\nLaunching the sequential crew..." ∨
    l = "\nCrew execution did not complete successfully." ∨
    l = "Reason: " ++ e ∨
    l = "Verify API credentials and network access, then re-run the script." := by
  rw [mainOutput, h] at hl
  rcases List.mem_append.mp hl with hp | hk
  · have := mem_preOutput w l hp
    tauto
  · simp [kickoffOutput] at hk
    tauto

/-- A string outside the fixed pre-kickoff and failure vocabulary, and not of
the topic-line or reason-line shape, never appears in the failure trace. -/
theorem fixed_not_in_error_trace (w : World) (e c : String)
    (h : w.kickoffResult = Except.error e)
    (hfix : c ∉ (["Welcome", eqBar,
        "No topic provided. Using default: " ++ default_topic,
        "\nConfiguring agents based on public service and design experience...",
        "Defining tasks aligned to research and storytelling workflows...",
        "\nLaunching the sequential crew...",
        "\nCrew execution did not complete successfully.",
        "Verify API credentials and network access, then re-run the script."] : List String))
    (hw : c ∉ (["Warning: the following environment variables are not set:",
        " - OPENAI_API_KEY",
        "Set the required keys before running the crew to avoid runtime errors.",
        serper_note_line] : List String))
    (ht : ¬ "\nTopic: ".data <+: c.data)
    (hr : ¬ "Reason: ".data <+: c.data) :
    c ∉ mainOutput w := by
  intro hmem
  simp only [List.mem_cons, List.not_mem_nil, or_false, not_or] at hfix hw
  rcases mem_mainOutput_error w e c h hmem with
    h1 | h1 | h1 | h1 | h1 | h1 | h1 | h1 | h1 | h1 | h1
  · exact hfix.1 h1
  · exact hfix.2.1 h1
  · rcases mem_warn_about_missing_keys w.env c h1 with h2 | h2 | h2 | h2
    · exact hw.1 h2
    · exact hw.2.1 h2
    · exact hw.2.2.1 h2
    · exact hw.2.2.2 h2
  · exact hfix.2.2.1 h1
  · exact append_ne_of_not_prefix "\nTopic: " (chooseTopic w.inputLine) c ht h1.symm
  · exact hfix.2.2.2.1 h1
  · exact hfix.2.2.2.2.1 h1
  · exact hfix.2.2.2.2.2.1 h1
  · exact hfix.2.2.2.2.2.2.1 h1
  · exact append_ne_of_not_prefix "Reason: " e c hr h1.symm
  · exact hfix.2.2.2.2.2.2.2 h1

/-- C4: when `crew.kickoff()` raises, `main` ends by printing the failure
line, the exception message, and the credentials/network hint, and none of
the success-path lines (completion banner, final-output header, article-saved
line, article-missing line) is printed. -/
theorem kickoff_error_aborts (w : World) (e : String)
    (h : w.kickoffResult = Except.error e) :
    ["\nCrew execution did not complete successfully.",
     "Reason: " ++ e,
     "Verify API credentials and network access, then re-run the script."]
       <:+ mainOutput w ∧
    "\nCrew execution completed successfully." ∉ mainOutput w ∧
    "Final Output:\n" ∉ mainOutput w ∧
    "\nArticle saved to \x27article.md\x27." ∉ mainOutput w ∧
    "\nThe file \x27article.md\x27 was not created. Confirm that the FileWriterTool is configured correctly."
      ∉ mainOutput w := by
  refine ⟨⟨preOutput w, by simp [mainOutput, h, kickoffOutput]⟩, ?_, ?_, ?_, ?_⟩ <;>
    exact fixed_not_in_error_trace w e _ h (by decide) (by decide) (by decide)
      (by decide)

/-- Witness for C4 at a concrete failing world. -/
theorem kickoff_error_aborts_witness :
    ["\nCrew execution did not complete successfully.",
     "Reason: " ++ "boom",
     "Verify API credentials and network access, then re-run the script."]
      <:+ mainOutput worldError :=
  (kickoff_error_aborts worldError "boom" rfl).1

/-- C5: after a successful kickoff, the trace ends with the branch selected
by the existence of `article.md`: the saved line plus the character-length
line when the file exists, the not-created line when it does not. -/
theorem article_branch_by_existence (w : World) (out : String)
    (h : w.kickoffResult = Except.ok out) :
    (∀ c, w.article = some c →
        ["\nArticle saved to \x27article.md\x27.",
         "Article length: " ++ toString c.length ++ " characters"]
          <:+ mainOutput w) ∧
    (w.article = none →
        ["\nThe file \x27article.md\x27 was not created. Confirm that the FileWriterTool is configured correctly."]
          <:+ mainOutput w) := by
  constructor
  · intro c hc
    exact ⟨preOutput w ++
        ["\nCrew execution completed successfully.", eqBar, "Final Output:\n", out],
      by simp [mainOutput, h, hc, kickoffOutput]⟩
  · intro hc
    exact ⟨preOutput w ++
        ["\nCrew execution completed successfully.", eqBar, "Final Output:\n", out],
      by simp [mainOutput, h, hc, kickoffOutput]⟩

/-- Witness for C5 at a world where `article.md` holds `hello`. -/
theorem article_branch_by_existence_witness :
    ["\nArticle saved to \x27article.md\x27.",
     "Article length: " ++ toString ("hello" : String).length ++ " characters"]
      <:+ mainOutput worldSaved :=
  (article_branch_by_existence worldSaved "done" rfl).1 "hello" rfl

/-- C6: the factories hand the configuration strings of the source verbatim
to the constructed objects. -/
theorem factories_carry_literal_strings (env : Env) (agent : Agent)
    (rt : CrewTask) (topic : String) :
    (create_research_agent env).role = "Ethics and Emerging Technology Research Lead" ∧
    (create_research_agent env).goal = "Synthesize cross-sector research into AI governance, civic technology, and human-centered innovation so complex topics are ready for policy and design discussions." ∧
    (create_research_agent env).backstory = "You guide conversations on technology ethics at Stanford, advise on AI accountability from service at the U.S. Government Accountability Office and the U.S. Patent and Trademark Office, and translate research for public servants, engineers, and designers." ∧
    create_writer_agent.role = "Policy Communicator and Storyteller" ∧
    create_writer_agent.goal = "Transform nuanced research into compelling narratives with clear recommendations for civic leaders, technologists, and academics." ∧
    create_writer_agent.backstory = "Drawing on experience moderating discussions with global leaders, crafting GAO reports for Congress, and briefing White House stakeholders, you excel at weaving evidence, ethics, and inclusive design into accessible writing." ∧
    (create_research_task agent topic).description =
      "Investigate the topic: " ++ topic
        ++ "\n\n    Anchor your thinking in the following background:\n    "
        ++ BACKGROUND_CONTEXT
        ++ "\n\n    Focus your review on:\n    1. Ethical, societal, and economic implications across government, industry, and civil society\n    2. Practical case studies from Federal initiatives, academia, and mission-driven organizations\n    3. Key policy, legal, and governance debates shaping the technology\x27s deployment\n    4. Opportunities to align innovation with public interest outcomes and inclusive design\n\n    Deliver concise, sourced findings suitable for collaboration with product, policy, and research partners." ∧
    (create_research_task agent topic).expected_output =
      "A structured research memo that includes:\n    - Executive summary highlighting the most relevant developments\n    - Table of key benefits, risks, and mitigation strategies\n    - Case studies with short annotations on impact and lessons learned\n    - Policy or governance considerations with references\n    - Bibliography of credible sources consulted" ∧
    (create_writing_task agent rt topic).description =
      "Using the research findings, craft a policy-oriented article on: " ++ topic
        ++ "\n\n    Keep this lived experience in mind while writing:\n    "
        ++ BACKGROUND_CONTEXT
        ++ "\n\n    Requirements:\n    1. Open with a concise briefing that situates the issue for technology and policy leaders\n    2. Organize sections for context, current state of the field, governance considerations, and future outlook\n    3. Showcase real-world examples that resonate with multi-sector stakeholders\n    4. Recommend actionable steps for researchers, product teams, and public officials\n    5. Save the article to \x27article.md\x27 in Markdown format\n\n    Aim for 800-1000 words with clear headings and accessible explanations.\n    Maintain a tone that reflects a collaborative civic technologist." ∧
    (create_writing_task agent rt topic).expected_output =
      "A Markdown article saved as \x27article.md\x27 containing:\n    - Briefing-style introduction\n    - Thematic sections with descriptive headings\n    - Integrated examples and stakeholder perspectives\n    - Actionable recommendations and closing reflection\n    - Reference list for further reading" :=
  ⟨rfl, rfl, rfl, rfl, rfl, rfl, rfl, rfl, rfl, rfl⟩

/-- C7: the crew runs the research task then the writing task under the
sequential process, and the writing task's context is exactly the research
task. -/
theorem crew_tasks_order_and_context (w : World) :
    (mainCrew w).process = Process.sequential ∧
    (mainCrew w).tasks =
      [create_research_task (create_research_agent w.env) (chooseTopic w.inputLine),
       create_writing_task create_writer_agent
         (create_research_task (create_research_agent w.env) (chooseTopic w.inputLine))
         (chooseTopic w.inputLine)] ∧
    (create_writing_task create_writer_agent
        (create_research_task (create_research_agent w.env) (chooseTopic w.inputLine))
        (chooseTopic w.inputLine)).context =
      [create_research_task (create_research_agent w.env) (chooseTopic w.inputLine)] ∧
    (mainCrew w).agents = [create_research_agent w.env, create_writer_agent] :=
  ⟨rfl, rfl, rfl, rfl⟩

/-- C8: with `SERPER_API_KEY` set to the empty string, the truthiness check
drops the search tool while the `is None` check suppresses the note: the two
checks disagree on empty-string values. -/
theorem serper_empty_string_disagreement (env : Env)
    (h : env "SERPER_API_KEY" = some "") :
    (create_research_agent env).tools = [] ∧
    serper_note_line ∉ warn_about_missing_keys env := by
  constructor
  · simp [create_research_agent, maybe_create_serper_tool, h, pyTruthy]
    decide
  · intro hm
    cases hb : pyTruthy (env "OPENAI_API_KEY") <;>
      simp [warn_about_missing_keys, h, hb, serper_note_line] at hm

/-- Witness for C8 at the concrete empty-string environment. -/
theorem serper_empty_string_disagreement_witness :
    (create_research_agent envSerperEmpty).tools = [] ∧
    serper_note_line ∉ warn_about_missing_keys envSerperEmpty :=
  serper_empty_string_disagreement envSerperEmpty rfl

/-- C9: the writer agent's tools list is exactly the file-writing tool,
unconditionally: `create_writer_agent` consults no environment variable. -/
theorem writer_agent_has_file_writer_tool :
    create_writer_agent.tools = [Tool.fileWriter] := rfl

/-- C10: both task descriptions embed the topic verbatim, the research
description embeds `BACKGROUND_CONTEXT` verbatim, and both tasks are built
with `async_execution=False`. -/
theorem task_descriptions_contain_topic_and_context (agent : Agent)
    (rt : CrewTask) (topic : String) :
    containsString (create_research_task agent topic).description topic ∧
    containsString (create_writing_task agent rt topic).description topic ∧
    containsString (create_research_task agent topic).description BACKGROUND_CONTEXT ∧
    (create_research_task agent topic).async_execution = false ∧
    (create_writing_task agent rt topic).async_execution = false := by
  refine ⟨⟨"Investigate the topic: ",
      "\n\n    Anchor your thinking in the following background:\n    "
        ++ BACKGROUND_CONTEXT
        ++ "\n\n    Focus your review on:\n    1. Ethical, societal, and economic implications across government, industry, and civil society\n    2. Practical case studies from Federal initiatives, academia, and mission-driven organizations\n    3. Key policy, legal, and governance debates shaping the technology\x27s deployment\n    4. Opportunities to align innovation with public interest outcomes and inclusive design\n\n    Deliver concise, sourced findings suitable for collaboration with product, policy, and research partners.", ?_⟩,
    ⟨"Using the research findings, craft a policy-oriented article on: ",
      "\n\n    Keep this lived experience in mind while writing:\n    "
        ++ BACKGROUND_CONTEXT
        ++ "\n\n    Requirements:\n    1. Open with a concise briefing that situates the issue for technology and policy leaders\n    2. Organize sections for context, current state of the field, governance considerations, and future outlook\n    3. Showcase real-world examples that resonate with multi-sector stakeholders\n    4. Recommend actionable steps for researchers, product teams, and public officials\n    5. Save the article to \x27article.md\x27 in Markdown format\n\n    Aim for 800-1000 words with clear headings and accessible explanations.\n    Maintain a tone that reflects a collaborative civic technologist.", ?_⟩,
    ⟨"Investigate the topic: " ++ topic
        ++ "\n\n    Anchor your thinking in the following background:\n    ",
      "\n\n    Focus your review on:\n    1. Ethical, societal, and economic implications across government, industry, and civil society\n    2. Practical case studies from Federal initiatives, academia, and mission-driven organizations\n    3. Key policy, legal, and governance debates shaping the technology\x27s deployment\n    4. Opportunities to align innovation with public interest outcomes and inclusive design\n\n    Deliver concise, sourced findings suitable for collaboration with product, policy, and research partners.", ?_⟩,
    rfl, rfl⟩ <;>
    simp [create_research_task, create_writing_task, CrewTask.description,
      String.append_assoc]
